import Mathlib

/-!
Shallow embedding of the mesh-data container from
`src/Magnum/Trade/MeshData.h` / `src/Magnum/Trade/MeshData.cpp`.

Modelling conventions:
* A `char` byte is a `Nat`; wherever the C++ reads a byte value, the model
  reduces it modulo 256.
* A `Corrade::Containers::ArrayView<char>` (pointer + size) is modelled as
  `Option (List Nat)`: `none` is a null view (the pointer test used by
  `isIndexed()`), `some bs` is a non-null view over the bytes `bs`.
* An owned `Containers::Array<char>` is a `List Nat`; in Corrade an empty or
  moved-from array is null, so the empty list models both.
* A `Containers::StridedArrayView<char>` is a record of its element count,
  byte stride and start offset; the element count is what `size()` returns.
* `CORRADE_ASSERT` failure paths are modelled as `none` of an `Option`.
* C++ compile-time template arguments (`indices<T>()`, `attribute<T>()`) are
  modelled as explicit first arguments ranging over the finitely many types
  the `Implementation::meshIndexTypeFor` / `meshAttributeTypeFor` tables
  cover.
-/

namespace Magnum.Trade

/-- `enum class MeshIndexType` (element widths 1/2/4 bytes). -/
inductive MeshIndexType where
  | UnsignedByte
  | UnsignedShort
  | UnsignedInt
deriving DecidableEq

/-- `enum class MeshAttributeType: UnsignedByte` from MeshData.h. -/
inductive MeshAttributeType where
  | Vector2
  | Vector3
  | Vector4
deriving DecidableEq

/-- `enum class MeshAttributeName: UnsignedByte`; `Custom = 128` and above
are importer-specific, carrying their raw byte value. -/
inductive MeshAttributeName where
  | Positions2D
  | Positions3D
  | Normals
  | TextureCoordinates2D
  | Colors
  | Custom (value : Nat)
deriving DecidableEq

/-- Byte width of each `MeshIndexType`, as used by `indexCount()`. -/
def indexTypeSize : MeshIndexType → Nat
  | .UnsignedByte => 1
  | .UnsignedShort => 2
  | .UnsignedInt => 4

/-- The C++ element types accepted by `MeshData::indices<T>()`, i.e. the
domain of `Implementation::meshIndexTypeFor`. -/
inductive CxxIndexType where
  | UnsignedByte
  | UnsignedShort
  | UnsignedInt
deriving DecidableEq

/-- `Implementation::meshIndexTypeFor<T>()` from MeshData.h. -/
def meshIndexTypeFor : CxxIndexType → MeshIndexType
  | .UnsignedByte => .UnsignedByte
  | .UnsignedShort => .UnsignedShort
  | .UnsignedInt => .UnsignedInt

/-- The C++ element types accepted by `MeshData::attribute<T>()`, i.e. the
domain of `Implementation::meshAttributeTypeFor`. -/
inductive CxxVectorType where
  | Vector2
  | Vector3
  | Color3
  | Vector4
  | Color4
deriving DecidableEq

/-- `Implementation::meshAttributeTypeFor<T>()` from MeshData.h. -/
def meshAttributeTypeFor : CxxVectorType → MeshAttributeType
  | .Vector2 => .Vector2
  | .Vector3 => .Vector3
  | .Color3 => .Vector3
  | .Vector4 => .Vector4
  | .Color4 => .Vector4

/-- `Containers::StridedArrayView<char>`: element count (`size()`), byte
stride and start offset of the addressed region. -/
structure StridedArrayView where
  size : Nat
  stride : Nat
  offset : Nat
deriving DecidableEq

/-- `MeshIndexData`: index type tag plus byte-range view (`data`). -/
structure MeshIndexData where
  type : MeshIndexType
  data : Option (List Nat)
deriving DecidableEq

/-- `MeshAttributeData`: name, type and strided view of one attribute. -/
structure MeshAttributeData where
  name : MeshAttributeName
  type : MeshAttributeType
  data : StridedArrayView
deriving DecidableEq

/-- `class MeshData` state: the members set by the constructor
(`_indexData`, `_vertexData`, `_indices`, `_attributes`, `_importerState`).
The importer-state pointer is modelled by its numeric value.
The constructor body performs no validation (its asserts are `@todo`
comments only), so constructing is exactly forming this record. -/
structure MeshData where
  indexData : List Nat
  vertexData : List Nat
  indices : MeshIndexData
  attributes : List MeshAttributeData
  importerState : Nat
deriving DecidableEq

/-- The bytes reachable through `_indices.data` (empty for a null view). -/
def MeshData.indexViewBytes (m : MeshData) : List Nat :=
  m.indices.data.getD []

/-- `isIndexed()`: `return _indices.data;` — the view's pointer test. -/
def MeshData.isIndexed (m : MeshData) : Bool :=
  m.indices.data.isSome

/-- `indexType()`: `return _indices.type;`. -/
def MeshData.indexType (m : MeshData) : MeshIndexType :=
  m.indices.type

/-- `indexCount()`: switch on `_indices.type` dividing the view's byte size
by 1, 2 or 4. -/
def MeshData.indexCount (m : MeshData) : Nat :=
  match m.indices.type with
  | .UnsignedByte => m.indexViewBytes.length
  | .UnsignedShort => m.indexViewBytes.length / 2
  | .UnsignedInt => m.indexViewBytes.length / 4

/-- `vertexCount()`: `return _attributes ? _attributes[0].data.size() : 0;`
(a Corrade array is null exactly when it is empty). -/
def MeshData.vertexCount (m : MeshData) : Nat :=
  match m.attributes with
  | [] => 0
  | a :: _ => a.data.size

/-- `attributeCount()`: `return _attributes.size();`. -/
def MeshData.attributeCount (m : MeshData) : Nat :=
  m.attributes.length

/-- Loop body of `attributeCount(MeshAttributeName)` over a list. -/
def countName : List MeshAttributeData → MeshAttributeName → Nat
  | [], _ => 0
  | a :: rest, name => (if a.name = name then 1 else 0) + countName rest name

/-- `attributeCount(MeshAttributeName)`: counts attributes with that name. -/
def MeshData.attributeCountOf (m : MeshData) (name : MeshAttributeName) : Nat :=
  countName m.attributes name

/-- Loop of `attributeFor(name, id)`: scan slots from position `i`,
decrementing `id` at each name match, returning the slot where `id` hit 0;
falling off the end is the `CORRADE_ASSERT(false, ...)` path (`none`). -/
def attributeForAux : List MeshAttributeData → MeshAttributeName → Nat → Nat → Option Nat
  | [], _, _, _ => none
  | a :: rest, name, id, i =>
    if a.name = name then
      match id with
      | 0 => some i
      | id' + 1 => attributeForAux rest name id' (i + 1)
    else attributeForAux rest name id (i + 1)

/-- `attributeFor(name, id)` from MeshData.cpp. -/
def MeshData.attributeFor (m : MeshData) (name : MeshAttributeName) (id : Nat) : Option Nat :=
  attributeForAux m.attributes name id 0

/-- `attributeName(id)`: range-checked (`CORRADE_ASSERT`) slot-name lookup. -/
def MeshData.attributeNameAt (m : MeshData) (id : Nat) : Option MeshAttributeName :=
  (m.attributes.get? id).map MeshAttributeData.name

/-- `attributeType(id)`: range-checked (`CORRADE_ASSERT`) slot-type lookup. -/
def MeshData.attributeTypeAt (m : MeshData) (id : Nat) : Option MeshAttributeType :=
  (m.attributes.get? id).map MeshAttributeData.type

/-- `convertIndices<UnsignedByte>`: each byte is one index element. -/
def convertIndices1 : List Nat → List Nat
  | [] => []
  | b :: rest => b % 256 :: convertIndices1 rest

/-- `convertIndices<UnsignedShort>`: consecutive byte pairs read as
little-endian 16-bit values. -/
def convertIndices2 : List Nat → List Nat
  | [] => []
  | [_] => []
  | b0 :: b1 :: rest => (b0 % 256 + 256 * (b1 % 256)) :: convertIndices2 rest

/-- `convertIndices<UnsignedInt>`: consecutive byte quadruples read as
little-endian 32-bit values. -/
def convertIndices4 : List Nat → List Nat
  | [] => []
  | [_] => []
  | [_, _] => []
  | [_, _, _] => []
  | b0 :: b1 :: b2 :: b3 :: rest =>
    (b0 % 256 + 256 * (b1 % 256) + 65536 * (b2 % 256) + 16777216 * (b3 % 256)) ::
      convertIndices4 rest

/-- Reading a byte view as elements of a given index type, as
`Containers::arrayCast<T>` does inside the index accessors. -/
def readIndexElements : MeshIndexType → List Nat → List Nat
  | .UnsignedByte, l => convertIndices1 l
  | .UnsignedShort, l => convertIndices2 l
  | .UnsignedInt, l => convertIndices4 l

/-- Untyped `indices()`: switch on the stored type, widening every element
to `UnsignedInt` into a freshly allocated array. -/
def MeshData.indices32 (m : MeshData) : List Nat :=
  match m.indices.type with
  | .UnsignedByte => convertIndices1 m.indexViewBytes
  | .UnsignedShort => convertIndices2 m.indexViewBytes
  | .UnsignedInt => convertIndices4 m.indexViewBytes

/-- Templated `indices<T>()`: `CORRADE_ASSERT` that
`meshIndexTypeFor<T>() == _indices.type` (else the `nullptr` assert path,
modelled `none`), then `arrayCast<T>(_indices.data)`. -/
def MeshData.indicesTyped (m : MeshData) (T : CxxIndexType) : Option (List Nat) :=
  if meshIndexTypeFor T = m.indices.type then
    some (readIndexElements m.indices.type m.indexViewBytes)
  else none

/-- Templated `attribute<T>(id)`: `CORRADE_ASSERT` on the slot range and on
`meshAttributeTypeFor<T>() == _attributes[id].type` (assert paths `none`),
then `arrayCast<T>` over the stored strided view. -/
def MeshData.attributeTyped (m : MeshData) (T : CxxVectorType) (id : Nat) :
    Option StridedArrayView :=
  match m.attributes.get? id with
  | none => none
  | some a => if meshAttributeTypeFor T = a.type then some a.data else none

/-- `releaseIndices()`: `_indices.data = nullptr; return std::move(_indexData);`
returning the buffer together with the post-state (a moved-from Corrade
array is null/empty). -/
def MeshData.releaseIndices (m : MeshData) : List Nat × MeshData :=
  (m.indexData,
    { m with indices := { type := m.indices.type, data := none }, indexData := [] })

/-- `releaseVertices()`: `_attributes = nullptr; return std::move(_vertexData);`. -/
def MeshData.releaseVertices (m : MeshData) : List Nat × MeshData :=
  (m.vertexData, { m with attributes := [], vertexData := [] })

/-- `MeshData(MeshData&&) = default`: result is (destination, source after
the move). The `Containers::Array` members are moved and left null/empty;
`_indices` (a plain struct holding an `ArrayView`) and the raw
`_importerState` pointer are memberwise-copied, not cleared. -/
def moveOf (m : MeshData) : MeshData × MeshData :=
  (m,
    { indexData := []
      vertexData := []
      indices := m.indices
      attributes := []
      importerState := m.importerState })

/-- Refinement target for `attributeFor`, written from the spec's words:
the slot indices of the attributes carrying `name`, listed in descriptor
insertion order, so that the nth occurrence's slot is entry `nth`. -/
def occurrenceSlotsSpec : List MeshAttributeData → MeshAttributeName → List Nat
  | [], _ => []
  | a :: rest, name =>
    if a.name = name then 0 :: (occurrenceSlotsSpec rest name).map (· + 1)
    else (occurrenceSlotsSpec rest name).map (· + 1)

/-! ### Concrete fixtures used by individual theorems -/

/-- First attribute of the spec's `attributeFor` example: `(Colors, A)`. -/
def exC3AttrA : MeshAttributeData := ⟨.Colors, .Vector3, ⟨4, 12, 0⟩⟩

/-- Second attribute of the example: `(Positions3D, B)`. -/
def exC3AttrB : MeshAttributeData := ⟨.Positions3D, .Vector3, ⟨4, 12, 12⟩⟩

/-- Third attribute of the example: `(Colors, C)`. -/
def exC3AttrC : MeshAttributeData := ⟨.Colors, .Vector4, ⟨4, 16, 24⟩⟩

/-- Mesh holding the attribute sequence `[(Colors,A),(Positions3D,B),(Colors,C)]`. -/
def exC3Mesh : MeshData :=
  ⟨[], [], ⟨.UnsignedByte, none⟩, [exC3AttrA, exC3AttrB, exC3AttrC], 0⟩

/-- Attribute with a 2-element view. -/
def exMismatchA : MeshAttributeData := ⟨.Positions2D, .Vector2, ⟨2, 8, 0⟩⟩

/-- Attribute with a 3-element view. -/
def exMismatchB : MeshAttributeData := ⟨.Normals, .Vector3, ⟨3, 12, 16⟩⟩

/-- Mesh constructed from two attributes whose views report different
element counts (2 and 3): the constructor body runs no checks, so the
record is formed as-is. -/
def exMismatchMesh : MeshData :=
  ⟨[], [], ⟨.UnsignedByte, none⟩, [exMismatchA, exMismatchB], 0⟩

/-- Mesh whose 3-byte index view is declared `UnsignedShort` (width 2):
accepted by the constructor although 3 is not a multiple of 2. -/
def exOddIndexMesh : MeshData :=
  ⟨[1, 0, 0], [], ⟨.UnsignedShort, some [1, 0, 0]⟩, [], 0⟩

/-- A `Vector3` attribute used by the typed-access witness. -/
def exC4Attr : MeshAttributeData := ⟨.Positions3D, .Vector3, ⟨2, 12, 0⟩⟩

/-- Indexed mesh (`UnsignedShort` indices 1 and 2) with one `Vector3`
attribute, for exercising the typed accessors. -/
def exC4Mesh : MeshData :=
  ⟨[1, 0, 2, 0], [], ⟨.UnsignedShort, some [1, 0, 2, 0]⟩, [exC4Attr], 0⟩

/-- Mesh with a byte-typed index buffer `[1, 2, 255]`. -/
def exByteIndexMesh : MeshData :=
  ⟨[1, 2, 255], [], ⟨.UnsignedByte, some [1, 2, 255]⟩, [], 0⟩

/-- An indexed mesh used to test what a move leaves in its source. -/
def exIndexedMesh : MeshData :=
  ⟨[7, 0], [], ⟨.UnsignedShort, some [7, 0]⟩, [], 0⟩

/-- Attribute with a 5-element view, placed at slot 0 in both meshes below. -/
def exC9Attr : MeshAttributeData := ⟨.Positions2D, .Vector2, ⟨5, 8, 0⟩⟩

/-- Mesh with two attributes; slot 0 has 5 elements, slot 1 has 9. -/
def exC9MeshA : MeshData :=
  ⟨[], [], ⟨.UnsignedByte, none⟩, [exC9Attr, ⟨.Normals, .Vector3, ⟨9, 12, 0⟩⟩], 0⟩

/-- Mesh sharing only slot 0 with `exC9MeshA`, everything else different. -/
def exC9MeshB : MeshData :=
  ⟨[3], [], ⟨.UnsignedInt, none⟩, [exC9Attr], 7⟩

/-! ### Helper lemmas about the index converters -/

theorem convertIndices1_length : ∀ l : List Nat, (convertIndices1 l).length = l.length
  | [] => by simp [convertIndices1]
  | _ :: rest => by
    have ih := convertIndices1_length rest
    simp [convertIndices1, ih]

theorem convertIndices2_length : ∀ l : List Nat, (convertIndices2 l).length = l.length / 2
  | [] => by simp [convertIndices2]
  | [_] => by simp [convertIndices2]
  | _ :: _ :: rest => by
    have ih := convertIndices2_length rest
    simp [convertIndices2, ih]
    omega

theorem convertIndices4_length : ∀ l : List Nat, (convertIndices4 l).length = l.length / 4
  | [] => by simp [convertIndices4]
  | [_] => by simp [convertIndices4]
  | [_, _] => by simp [convertIndices4]
  | [_, _, _] => by simp [convertIndices4]
  | _ :: _ :: _ :: _ :: rest => by
    have ih := convertIndices4_length rest
    simp [convertIndices4, ih]
    omega

theorem convertIndices1_lt : ∀ l : List Nat, ∀ x ∈ convertIndices1 l, x < 256
  | [] => by simp [convertIndices1]
  | b :: rest => by
    intro x hx
    simp only [convertIndices1, List.mem_cons] at hx
    rcases hx with h | h
    · omega
    · exact convertIndices1_lt rest x h

theorem convertIndices2_lt : ∀ l : List Nat, ∀ x ∈ convertIndices2 l, x < 65536
  | [] => by simp [convertIndices2]
  | [_] => by simp [convertIndices2]
  | b0 :: b1 :: rest => by
    intro x hx
    simp only [convertIndices2, List.mem_cons] at hx
    rcases hx with h | h
    · omega
    · exact convertIndices2_lt rest x h

theorem convertIndices4_lt : ∀ l : List Nat, ∀ x ∈ convertIndices4 l, x < 4294967296
  | [] => by simp [convertIndices4]
  | [_] => by simp [convertIndices4]
  | [_, _] => by simp [convertIndices4]
  | [_, _, _] => by simp [convertIndices4]
  | b0 :: b1 :: b2 :: b3 :: rest => by
    intro x hx
    simp only [convertIndices4, List.mem_cons] at hx
    rcases hx with h | h
    · omega
    · exact convertIndices4_lt rest x h

/-! ### Occurrence-order characterisation of `attributeFor` -/

theorem attributeForAux_eq (name : MeshAttributeName) (l : List MeshAttributeData) :
    ∀ (id i : Nat),
      attributeForAux l name id i
        = ((occurrenceSlotsSpec l name)[id]?).map (fun k => k + i) := by
  induction l with
  | nil => intro id i; simp [attributeForAux, occurrenceSlotsSpec]
  | cons a rest ih =>
    intro id i
    by_cases h : a.name = name
    · cases id with
      | zero => simp [attributeForAux, occurrenceSlotsSpec, h]
      | succ id' =>
        have step : attributeForAux (a :: rest) name (id' + 1) i
            = attributeForAux rest name id' (i + 1) := by
          simp [attributeForAux, h]
        rw [step, ih id' (i + 1)]
        simp only [occurrenceSlotsSpec, if_pos h, List.getElem?_cons_succ,
          List.getElem?_map]
        cases hx : (occurrenceSlotsSpec rest name)[id']? with
        | none => simp
        | some k => simp; omega
    · have step : attributeForAux (a :: rest) name id i
          = attributeForAux rest name id (i + 1) := by
        simp [attributeForAux, h]
      rw [step, ih id (i + 1)]
      simp only [occurrenceSlotsSpec, if_neg h, List.getElem?_map]
      cases hx : (occurrenceSlotsSpec rest name)[id]? with
      | none => simp
      | some k => simp; omega

theorem countName_eq_length (name : MeshAttributeName) (l : List MeshAttributeData) :
    countName l name = (occurrenceSlotsSpec l name).length := by
  induction l with
  | nil => simp [countName, occurrenceSlotsSpec]
  | cons a rest ih =>
    by_cases h : a.name = name
    · simp [countName, occurrenceSlotsSpec, h, ih]
      omega
    · simp [countName, occurrenceSlotsSpec, h, ih]

/-- The element count `vertexCount()` reads is the head attribute's view
size (0 when the attribute array is empty). -/
theorem vertexCount_eq_head (m : MeshData) :
    m.vertexCount = ((m.attributes.head?).map (fun a => a.data.size)).getD 0 := by
  cases hh : m.attributes <;> simp [MeshData.vertexCount, hh]

/-! ### Claim theorems -/

/-- C1: the constructor performs no validation (its asserts are `@todo`
comments), so a mesh whose two attribute views report different element
counts (2 and 3) is accepted and stored as-is, after which `vertexCount()`
(= 2, slot 0's count) disagrees with the second attribute view's element
count (= 3), contradicting the documented construction-time check. -/
theorem constructor_accepts_mismatched_counts :
    exMismatchMesh.attributes = [exMismatchA, exMismatchB]
  ∧ exMismatchMesh.vertexCount = 2
  ∧ exMismatchB.data.size = 3
  ∧ exMismatchMesh.vertexCount ≠ exMismatchB.data.size := by
  decide

/-- C2: `indexCount()` is the byte length of the index view divided (with
truncation) by the element width, but a non-multiple byte length is *not*
rejected: a 3-byte view declared `UnsignedShort` is accepted by the
constructor and then `indexCount() * elementWidth = 2 ≠ 3 = indexData().size()`. -/
theorem constructor_accepts_nonmultiple_index_bytes :
    exOddIndexMesh.indexData.length = 3
  ∧ exOddIndexMesh.indexType = .UnsignedShort
  ∧ exOddIndexMesh.indexCount = 1
  ∧ exOddIndexMesh.indexCount * indexTypeSize exOddIndexMesh.indexType
      ≠ exOddIndexMesh.indexData.length := by
  decide

/-- C3: `attributeFor(name, nth)` returns the slot index of the nth
occurrence of `name` in descriptor insertion order (entry `nth` of the
occurrence-slot list), and takes the out-of-range assertion path exactly
when fewer than `nth + 1` attributes with that name exist. -/
theorem attributeFor_nth_occurrence (m : MeshData) (name : MeshAttributeName) (nth : Nat) :
    m.attributeFor name nth = (occurrenceSlotsSpec m.attributes name)[nth]?
  ∧ (m.attributeFor name nth = none ↔ m.attributeCountOf name ≤ nth) := by
  have h := attributeForAux_eq name m.attributes nth 0
  constructor
  · rw [MeshData.attributeFor, h]
    cases hx : (occurrenceSlotsSpec m.attributes name)[nth]? <;> simp
  · rw [MeshData.attributeFor, h, MeshData.attributeCountOf, countName_eq_length]
    rw [Option.map_eq_none', List.getElem?_eq_none_iff]

/-- Witness for C3 at the spec's example sequence
`[(Colors,A), (Positions3D,B), (Colors,C)]`: occurrences 0 and 1 of
`Colors` resolve to slots 0 and 2, occurrence 2 fails. -/
theorem attributeFor_nth_occurrence_witness :
    exC3Mesh.attributeFor .Colors 0 = some 0
  ∧ exC3Mesh.attributeFor .Colors 1 = some 2
  ∧ exC3Mesh.attributeFor .Colors 2 = none := by
  have h0 := attributeFor_nth_occurrence exC3Mesh .Colors 0
  have h1 := attributeFor_nth_occurrence exC3Mesh .Colors 1
  have h2 := attributeFor_nth_occurrence exC3Mesh .Colors 2
  refine ⟨h0.1.trans (by decide), h1.1.trans (by decide), h2.2.mpr (by decide)⟩

/-- C4: the typed accessors are type-checked at call time — `indices<T>()`
returns the assertion value (`none`) whenever `meshIndexTypeFor<T>` differs
from the stored index type and the cast view over the stored bytes when it
matches; `attribute<T>(id)` likewise returns the assertion value on a slot
out of range or a `meshAttributeTypeFor<T>` mismatch, and the stored
strided view on a match. -/
theorem typed_access_type_checked (m : MeshData) (Ti : CxxIndexType)
    (Ta : CxxVectorType) (id : Nat) :
    (meshIndexTypeFor Ti ≠ m.indexType → m.indicesTyped Ti = none)
  ∧ (meshIndexTypeFor Ti = m.indexType →
      m.indicesTyped Ti = some (readIndexElements m.indexType m.indexViewBytes))
  ∧ (∀ a, m.attributes[id]? = some a →
      (meshAttributeTypeFor Ta ≠ a.type → m.attributeTyped Ta id = none)
    ∧ (meshAttributeTypeFor Ta = a.type → m.attributeTyped Ta id = some a.data))
  ∧ (m.attributes[id]? = none → m.attributeTyped Ta id = none) := by
  refine ⟨?_, ?_, ?_, ?_⟩
  · intro h
    simp only [MeshData.indexType] at h
    simp [MeshData.indicesTyped, h]
  · intro h
    simp only [MeshData.indexType] at h
    simp [MeshData.indicesTyped, MeshData.indexType, h]
  · intro a ha
    constructor
    · intro h
      simp [MeshData.attributeTyped, ha, h]
    · intro h
      simp [MeshData.attributeTyped, ha, h]
  · intro h
    simp [MeshData.attributeTyped, h]

/-- Witness for C4 on a concrete mesh with `UnsignedShort` indices and one
`Vector3` attribute: a byte-typed index request and a `Vector2` attribute
request hit the assertion path, while the matching requests return the
stored data. -/
theorem typed_access_type_checked_witness :
    exC4Mesh.indicesTyped .UnsignedByte = none
  ∧ exC4Mesh.indicesTyped .UnsignedShort = some [1, 2]
  ∧ exC4Mesh.attributeTyped .Vector2 0 = none
  ∧ exC4Mesh.attributeTyped .Color3 0 = some exC4Attr.data := by
  have h := typed_access_type_checked exC4Mesh .UnsignedByte .Color3 0
  have h2 := typed_access_type_checked exC4Mesh .UnsignedShort .Vector2 0
  refine ⟨h.1 (by decide), ?_, ?_, ?_⟩
  · exact (h2.2.1 (by decide)).trans (by decide)
  · exact ((h2.2.2.1 exC4Attr (by decide)).1 (by decide))
  · exact ((h.2.2.1 exC4Attr (by decide)).2 (by decide))

/-- C5: the untyped `indices()` conversion yields exactly `indexCount()`
elements, each the value of the corresponding stored index element read at
the stored width, and every element fits in 32 bits (the widening is
value-preserving); on the byte-typed buffer `[1, 2, 255]` it yields
`[1, 2, 255]` in order. -/
theorem indices32_widens (m : MeshData) :
    m.indices32.length = m.indexCount
  ∧ m.indices32 = readIndexElements m.indexType m.indexViewBytes
  ∧ (∀ x ∈ m.indices32, x < 4294967296)
  ∧ exByteIndexMesh.indices32 = [1, 2, 255] := by
  refine ⟨?_, ?_, ?_, by decide⟩
  · cases htype : m.indices.type <;>
      simp [MeshData.indices32, MeshData.indexCount, htype,
        convertIndices1_length, convertIndices2_length, convertIndices4_length]
  · cases htype : m.indices.type <;>
      simp [MeshData.indices32, readIndexElements, MeshData.indexType, htype]
  · cases htype : m.indices.type
    · intro x hx
      simp only [MeshData.indices32, htype] at hx
      have := convertIndices1_lt _ x hx
      omega
    · intro x hx
      simp only [MeshData.indices32, htype] at hx
      have := convertIndices2_lt _ x hx
      omega
    · intro x hx
      simp only [MeshData.indices32, htype] at hx
      exact convertIndices4_lt _ x hx

/-- Witness for C5 at the `[1, 2, 255]` byte-index mesh. -/
theorem indices32_widens_witness :
    exByteIndexMesh.indices32.length = exByteIndexMesh.indexCount
  ∧ (255 : Nat) < 4294967296 := by
  have h := indices32_widens exByteIndexMesh
  exact ⟨h.1, h.2.2.1 255 (by rw [h.2.2.2]; decide)⟩

/-- C6: `releaseIndices()` hands back the owned index buffer, the mesh then
reports `isIndexed() = false` (the index view was reset), and a second
`releaseIndices()` call is well-defined and returns an empty buffer. -/
theorem releaseIndices_resets (m : MeshData) :
    (m.releaseIndices).1 = m.indexData
  ∧ ((m.releaseIndices).2).isIndexed = false
  ∧ (((m.releaseIndices).2).releaseIndices).1 = []
  ∧ ((((m.releaseIndices).2).releaseIndices).2).isIndexed = false := by
  exact ⟨rfl, rfl, rfl, rfl⟩

/-- C7 counterexample: the defaulted move memberwise-copies the plain
`MeshIndexData` member instead of clearing it, so the source of a move
from an indexed mesh still reports `isIndexed() = true` and its index view
still aliases the data now owned by the destination. -/
theorem move_source_still_indexed :
    exIndexedMesh.isIndexed = true
  ∧ ((moveOf exIndexedMesh).2).isIndexed = true
  ∧ ¬(((moveOf exIndexedMesh).2).isIndexed = false)
  ∧ ((moveOf exIndexedMesh).2).indices.data = some [7, 0] := by
  decide

/-- C7 amended: moving transfers the owned `Array` members — the source is
left with empty index and vertex buffers and zero attributes (hence vertex
count 0), and the destination reproduces the source's original state
exactly — but the index descriptor and the importer-state pointer are
copied, not cleared, in the source. -/
theorem move_semantics_amended (m : MeshData) :
    (moveOf m).1 = m
  ∧ ((moveOf m).2).indexData = []
  ∧ ((moveOf m).2).vertexData = []
  ∧ ((moveOf m).2).attributes = []
  ∧ ((moveOf m).2).vertexCount = 0
  ∧ ((moveOf m).2).attributeCount = 0
  ∧ ((moveOf m).2).indices = m.indices
  ∧ ((moveOf m).2).importerState = m.importerState := by
  exact ⟨rfl, rfl, rfl, rfl, rfl, rfl, rfl, rfl⟩

/-- C9: `vertexCount()` depends only on attribute slot 0 — it is 0 when the
attribute array is empty and the head attribute view's element count
otherwise, and any two meshes with the same head attribute agree on it. -/
theorem vertexCount_slot0_only (m : MeshData) :
    (m.attributes = [] → m.vertexCount = 0)
  ∧ (∀ a rest, m.attributes = a :: rest → m.vertexCount = a.data.size)
  ∧ (∀ m' : MeshData, m.attributes.head? = m'.attributes.head? →
      m.vertexCount = m'.vertexCount) := by
  refine ⟨?_, ?_, ?_⟩
  · intro h
    simp [MeshData.vertexCount, h]
  · intro a rest h
    simp [MeshData.vertexCount, h]
  · intro m' h
    rw [vertexCount_eq_head, vertexCount_eq_head, h]

/-- Witness for C9: two meshes sharing only attribute slot 0 (5-element
view) both report vertex count 5. -/
theorem vertexCount_slot0_only_witness :
    exC9MeshA.vertexCount = 5
  ∧ exC9MeshB.vertexCount = 5
  ∧ exC9MeshA.vertexCount = exC9MeshB.vertexCount := by
  have hA := vertexCount_slot0_only exC9MeshA
  have hB := vertexCount_slot0_only exC9MeshB
  refine ⟨(hA.2.1 exC9Attr _ rfl).trans (by decide),
    (hB.2.1 exC9Attr _ rfl).trans (by decide),
    hA.2.2 exC9MeshB (by decide)⟩

/-- C10: frame effects of the release operations — `releaseIndices()`
changes only the index view (to null) and the owned index buffer (to
empty), leaving the vertex buffer, the attribute collection, the stored
index type and the importer state untouched; `releaseVertices()` changes
only the attribute collection and the owned vertex buffer, leaving the
index buffer, the whole index descriptor and the importer state untouched. -/
theorem release_frame_effects (m : MeshData) :
    ((m.releaseIndices).2).vertexData = m.vertexData
  ∧ ((m.releaseIndices).2).attributes = m.attributes
  ∧ ((m.releaseIndices).2).indexType = m.indexType
  ∧ ((m.releaseIndices).2).importerState = m.importerState
  ∧ ((m.releaseIndices).2).indices.data = none
  ∧ ((m.releaseIndices).2).indexData = []
  ∧ ((m.releaseVertices).2).indexData = m.indexData
  ∧ ((m.releaseVertices).2).indices = m.indices
  ∧ ((m.releaseVertices).2).importerState = m.importerState
  ∧ ((m.releaseVertices).2).attributes = []
  ∧ ((m.releaseVertices).2).vertexData = [] := by
  exact ⟨rfl, rfl, rfl, rfl, rfl, rfl, rfl, rfl, rfl, rfl, rfl⟩

end Magnum.Trade
